import Mathlib

/-!
Verification of the AstrBot push-notification dispatcher
(`src/notifier/astrbot.py`).

The Python source is shallowly embedded: pure functions become Lean
functions; the HTTP transport, image download/transcode pipeline and the
per-record exception behaviour are modelled by explicit environment
parameters describing each external outcome; the per-record loop of
`AstrBotNotifier.send` becomes explicit state passing over a `SendState`
record that also carries a trace of the externally observable events
(HTTP delivery attempts and inter-message pauses).
-/

namespace AstrBot

/-- Configuration of `AstrBotNotifier` relevant to the verified claims
(`max_pages`, constructor default 10).  `image_quality` and
`max_image_size` only parameterise the opaque image-processing step and
are folded into the image environment. -/
structure Config where
  max_pages : Nat
deriving Repr, DecidableEq

/-- An illustration record (`Illust` from `pixiv_client`), as read by the
notifier.  `ty` models the Python attribute `type` read via
`getattr(illust, 'type', 'illust')` (already defaulted); `match_score`
models the optional score, carried as the rounded percentage the caption
renders (`f"{match_score*100:.0f}"`), since only its presence and the
rendered digits matter to the caption. -/
structure Illust where
  id : Int
  title : String
  user_name : String
  bookmark_count : Int
  tags : List String
  page_count : Nat
  ty : String
  is_r18 : Bool
  match_score : Option Nat
  image_urls : List String
deriving Repr, DecidableEq

/-- `tags = " ".join(f"#{t}" for t in illust.tags[:5])` — the individual
hash-prefixed tag strings before joining. -/
def tag_parts (il : Illust) : List String :=
  (il.tags.take 5).map (fun t => "#" ++ t)

/-- `page_info = f" ({illust.page_count}P)" if illust.page_count > 1 else ""`. -/
def page_info (il : Illust) : String :=
  if il.page_count > 1 then " (" ++ toString il.page_count ++ "P)" else ""

/-- `long_mark = "📚 " if illust.page_count > self.max_pages else ""`. -/
def long_mark (cfg : Config) (il : Illust) : String :=
  if il.page_count > cfg.max_pages then "📚 " else ""

/-- `r18_mark = "🔞 " if illust.is_r18 else ""`. -/
def r18_mark (il : Illust) : String :=
  if il.is_r18 then "🔞 " else ""

/-- `ugoira_mark = "🎞️ " if getattr(illust, 'type', 'illust') == 'ugoira' else ""`. -/
def ugoira_mark (il : Illust) : String :=
  if il.ty = "ugoira" then "🎞️ " else ""

/-- `match_line = f"🎯 匹配度: {match_score*100:.0f}%\n" if match_score is not None else ""`. -/
def match_line (il : Illust) : String :=
  match il.match_score with
  | some s => "🎯 匹配度: " ++ toString s ++ "%\n"
  | none => ""

/-- `AstrBotNotifier.format_message`: the caption string, built with the
source's fixed field order. -/
def format_message (cfg : Config) (il : Illust) : String :=
  long_mark cfg il ++ r18_mark il ++ ugoira_mark il ++ "🎨 " ++ il.title ++ page_info il ++ "\n"
    ++ "👤 " ++ il.user_name ++ "\n"
    ++ "❤️ " ++ toString il.bookmark_count ++ "\n"
    ++ match_line il
    ++ "🏷️ " ++ String.intercalate " " (tag_parts il) ++ "\n"
    ++ "🔗 https://pixiv.net/i/" ++ toString il.id ++ "\n\n"
    ++ "回复 " ++ toString il.id ++ " 1=喜欢 2=不喜欢"

theorem page_suffix_ne_empty (s : String) : " (" ++ s ++ "P)" ≠ "" := by
  intro h
  have h2 := congrArg String.length h
  simp [String.length_append] at h2
  exact absurd h2.1.1 (by decide)

/-- One element of the JSON message chain:
`{"type":"Plain","text":...}`, `{"type":"Image","base64":...}` or
`{"type":"Image","url":...}`. -/
inductive Segment where
  | plain (text : String)
  | image_b64 (b64 : String)
  | image_url (url : String)
deriving Repr, DecidableEq

/-- A parsed JSON response body from the gateway, restricted to the
integer-valued fields the source reads (`message_id`, `msg_id`; the
correlation map is typed `dict[int, int]`).  The empty list models the
empty JSON object `{}`, which is falsy in Python. -/
abbrev JsonObj : Type := List (String × Int)

/-- `result.get(key)`: the value under `key`, or `none` when absent. -/
def jget (r : JsonObj) (k : String) : Option Int :=
  (List.find? (fun p => p.1 == k) r).map (fun p => p.2)

/-- Python `a or b` on two `.get` results, where an `int` value is truthy
iff nonzero and `None` is falsy. -/
def pyOr (a b : Option Int) : Option Int :=
  match a with
  | some v => if v = 0 then b else some v
  | none => b

/-- Python `if msg_id:` — keep the value only when it is truthy. -/
def truthyId : Option Int → Option Int
  | some v => if v = 0 then none else some v
  | none => none

/-- `msg_id = result.get("message_id") or result.get("msg_id")` followed by
the `if msg_id:` guard: the message identifier that actually gets
recorded, if any. -/
def extract_msg_id (r : JsonObj) : Option Int :=
  truthyId (pyOr (jget r "message_id") (jget r "msg_id"))

/-- Python dict assignment `m[k] = v` on the correlation map, modelled on
an association list with unique keys: overwrite the existing entry for
`k`, else append `(k, v)`. -/
def dictSet (m : List (Int × Int)) (k v : Int) : List (Int × Int) :=
  if m.any (fun p => p.1 == k) then
    m.map (fun p => if p.1 == k then (k, v) else p)
  else m ++ [(k, v)]

instance {ε α : Type} [DecidableEq ε] [DecidableEq α] : DecidableEq (Except ε α) := fun a b =>
  match a, b with
  | Except.error e, Except.error f =>
      if h : e = f then isTrue (by rw [h]) else isFalse (by intro hh; cases hh; exact h rfl)
  | Except.error _, Except.ok _ => isFalse (by intro hh; cases hh)
  | Except.ok _, Except.error _ => isFalse (by intro hh; cases hh)
  | Except.ok x, Except.ok y =>
      if h : x = y then isTrue (by rw [h]) else isFalse (by intro hh; cases hh; exact h rfl)

/-- Outcome of one HTTP POST to `{http_url}/api/v1/send`, as seen by
`_post_message`.  A 200 status carries the body-parsing outcome
(`await resp.json()` can itself raise, e.g. on a non-JSON body, and that
exception is not caught by `_post_message`'s handlers, which only catch
`aiohttp.ClientError` and `asyncio.TimeoutError`). -/
inductive HttpOutcome where
  | status200 (body : Except Unit JsonObj)
  | badStatus
  | clientError
  | timeout
deriving Repr, DecidableEq

/-- `AstrBotNotifier._post_message`: 200 returns the parsed body; any
other status, a transport error or a timeout returns `None`; a
body-parse exception propagates (`Except.error`). -/
def post_message : HttpOutcome → Except Unit (Option JsonObj)
  | HttpOutcome.status200 (Except.ok r) => Except.ok (some r)
  | HttpOutcome.status200 (Except.error e) => Except.error e
  | HttpOutcome.badStatus => Except.ok none
  | HttpOutcome.clientError => Except.ok none
  | HttpOutcome.timeout => Except.ok none

/-- External outcomes for one record of a `send` batch: the result of
`_download_and_encode_image` on the cover URL (that helper never raises,
see `download_and_encode_image`), and the HTTP outcome of the delivery
attempt. -/
structure RecordEnv where
  img : Option String
  http : HttpOutcome

/-- `True` when processing the record lets an exception escape to the
batch loop's `except` handler (in this embedding: the body-parse error
inside `_post_message`). -/
def record_raises (env : RecordEnv) : Bool :=
  match env.http with
  | HttpOutcome.status200 (Except.error _) => true
  | _ => false

/-- Modelled from the spec: `get_pixiv_cat_url` lives in the repository's
`utils` module, which is not under `src/`; the spec (§4.4 and §8)
describes the fallback as a link-based image segment pointing at a
mirror/proxy URL (pixiv.cat, per the source comment) for the
illustration identifier. -/
def get_pixiv_cat_url (illust_id : Int) : String :=
  "https://pixiv.cat/" ++ toString illust_id ++ ".jpg"

/-- Steps 1–2 of the per-record loop in `AstrBotNotifier.send`: the
message chain for one record, given the image-download outcome for the
cover URL (consulted only when `illust.image_urls` is nonempty). -/
def build_chain (cfg : Config) (il : Illust) (img : Option String) : List Segment :=
  (if il.image_urls.isEmpty then []
   else
     match img with
     | some b64 => [Segment.image_b64 b64]
     | none => [Segment.image_url (get_pixiv_cat_url il.id)])
  ++ [Segment.plain (format_message cfg il)]

/-- Externally observable events of a `send` batch, in order. -/
inductive Event where
  | attempt (chain : List Segment)
  | pause
deriving Repr, DecidableEq

/-- State threaded through the `send` loop: `success_ids` is the list the
call returns, `msg_map` is `_message_illust_map`, and `trace` records
delivery attempts and `asyncio.sleep(1)` pauses. -/
structure SendState where
  success_ids : List Int
  msg_map : List (Int × Int)
  trace : List Event
deriving Repr, DecidableEq

/-- The body of the `for illust in illusts:` loop in
`AstrBotNotifier.send`, including the per-record `try`/`except`: build
the chain, post it, on a truthy result append the identifier and record
the correlation entry, sleep — and on an escaping exception skip
straight to the next record (the `sleep` sits inside the `try`, so it is
skipped too). -/
def send_step (cfg : Config) (st : SendState) (il : Illust) (env : RecordEnv) : SendState :=
  let chain := build_chain cfg il env.img
  match post_message env.http with
  | Except.error _ =>
      { st with trace := st.trace ++ [Event.attempt chain] }
  | Except.ok none =>
      { st with trace := st.trace ++ [Event.attempt chain, Event.pause] }
  | Except.ok (some r) =>
      if r.isEmpty then
        { st with trace := st.trace ++ [Event.attempt chain, Event.pause] }
      else
        { success_ids := st.success_ids ++ [il.id]
          msg_map :=
            match extract_msg_id r with
            | some mid => dictSet st.msg_map mid il.id
            | none => st.msg_map
          trace := st.trace ++ [Event.attempt chain, Event.pause] }

/-- The `send` loop over the remaining records; `i` is the index of the
next record in the original batch, used to look up its environment. -/
def send_loop (cfg : Config) (envs : Nat → RecordEnv) :
    List Illust → Nat → SendState → SendState
  | [], _, st => st
  | il :: rest, i, st => send_loop cfg envs rest (i + 1) (send_step cfg st il (envs i))

/-- `AstrBotNotifier.send`: process the whole batch starting from an
empty success list and trace, with `m0` the correlation map already held
by the notifier instance. -/
def send (cfg : Config) (ils : List Illust) (envs : Nat → RecordEnv)
    (m0 : List (Int × Int)) : SendState :=
  send_loop cfg envs ils 0 { success_ids := [], msg_map := m0, trace := [] }

/-- Number of HTTP delivery attempts in a trace. -/
def attemptCount (tr : List Event) : Nat :=
  tr.countP (fun e => match e with | Event.attempt _ => true | _ => false)

/-- Number of inter-message pauses in a trace. -/
def pauseCount (tr : List Event) : Nat :=
  tr.countP (fun e => match e with | Event.pause => true | _ => false)

/-- Raw image bytes, abstracted. -/
abbrev Bytes : Type := List Nat

/-- External outcomes of the image pipeline inside
`_download_and_encode_image`: `download` models
`download_image_with_referer` (fetch may raise or return empty/None on a
failed fetch), and `process` models the whole PIL decode / normalize /
resize / JPEG-encode / base64 step, which may raise. -/
structure ImgEnv where
  download : String → Except Unit (Option Bytes)
  process : Bytes → Except Unit String

/-- `AstrBotNotifier._download_and_encode_image`: every exception from
the download or the decode/encode pipeline is caught by the enclosing
`except Exception` and turned into `None`; a fetch returning no data
(`if not image_data`) is also `None`; otherwise the base64 text of the
re-encoded image is returned. -/
def download_and_encode_image (env : ImgEnv) (url : String) : Option String :=
  match env.download url with
  | Except.error _ => none
  | Except.ok none => none
  | Except.ok (some data) =>
    match env.process data with
    | Except.error _ => none
    | Except.ok b64 => some b64

/-- `AstrBotNotifier.handle_feedback`.  The configured callback is
modelled by its presence (`Option Unit`); the second component of the
result is the list of `(illust_id, action)` pairs forwarded to it. -/
def handle_feedback (on_feedback : Option Unit) (illust_id : Int) (action : String) :
    Bool × List (Int × String) :=
  match on_feedback with
  | some _ => (true, [(illust_id, action)])
  | none => (true, [])

/-- The message chain built by `AstrBotNotifier.send_text`: a single
`Plain` segment; when the button list is truthy (nonempty), a bulleted
list of the button *labels* is appended to the text
(`f"• {label}" for label, _ in buttons`). -/
def send_text_chain (text : String) (buttons : List (String × String)) : List Segment :=
  if buttons.isEmpty then [Segment.plain text]
  else
    [Segment.plain
      (text ++ "\n\n"
        ++ String.intercalate "\n" (buttons.map (fun b => "• " ++ b.1)))]

/-- `AstrBotNotifier.send_text`: posts the chain and returns
`result is not None`; a body-parse exception propagates (no `try` in
`send_text`).  The result is paired with the chain actually posted. -/
def send_text (http : HttpOutcome) (text : String) (buttons : List (String × String)) :
    Except Unit (List Segment × Bool) :=
  (post_message http).map (fun r => (send_text_chain text buttons, r.isSome))

/- Concrete fixtures used by witnesses and counterexamples. -/

/-- A configuration with the constructor defaults. -/
def cfg0 : Config := { max_pages := 10 }

/-- A concrete record with one image URL. -/
def il1 : Illust :=
  { id := 101, title := "alpha", user_name := "ann", bookmark_count := 5,
    tags := ["a", "b"], page_count := 1, ty := "illust", is_r18 := false,
    match_score := none, image_urls := ["https://i.pximg.net/1.png"] }

/-- A second concrete record. -/
def il2 : Illust :=
  { id := 202, title := "beta", user_name := "bob", bookmark_count := 7,
    tags := [], page_count := 3, ty := "illust", is_r18 := false,
    match_score := some 80, image_urls := [] }

/-- A third concrete record. -/
def il3 : Illust :=
  { id := 303, title := "gamma", user_name := "cat", bookmark_count := 9,
    tags := ["x"], page_count := 12, ty := "ugoira", is_r18 := true,
    match_score := none, image_urls := ["https://i.pximg.net/3.png"] }

/-- Record environments for a 3-record batch where the second delivery
returns a non-200 status and the other two succeed with a truthy body. -/
def envsC1 : Nat → RecordEnv := fun i =>
  match i with
  | 0 => { img := some "QUJD", http := HttpOutcome.status200 (Except.ok [("message_id", 7)]) }
  | 1 => { img := none, http := HttpOutcome.badStatus }
  | _ => { img := none, http := HttpOutcome.status200 (Except.ok [("msg_id", 8)]) }

/-- Number of records among indices `[i, i + n)` whose processing does
not let an exception escape to the batch handler. -/
def noRaiseCount (envs : Nat → RecordEnv) : Nat → Nat → Nat
  | _, 0 => 0
  | i, n + 1 =>
    (if record_raises (envs i) then 0 else 1) + noRaiseCount envs (i + 1) n

theorem send_step_trace (cfg : Config) (st : SendState) (il : Illust) (env : RecordEnv) :
    (send_step cfg st il env).trace =
      st.trace ++ Event.attempt (build_chain cfg il env.img) ::
        (if record_raises env then [] else [Event.pause]) := by
  rcases env with ⟨img, http⟩
  rcases http with b | _ | _ | _
  · rcases b with e | r
    · simp [send_step, post_message, record_raises]
    · simp only [send_step, post_message, record_raises]
      split <;> simp
  · simp [send_step, post_message, record_raises]
  · simp [send_step, post_message, record_raises]
  · simp [send_step, post_message, record_raises]

theorem send_step_ids (cfg : Config) (st : SendState) (il : Illust) (env : RecordEnv) :
    (send_step cfg st il env).success_ids = st.success_ids ∨
      (send_step cfg st il env).success_ids = st.success_ids ++ [il.id] := by
  rcases env with ⟨img, http⟩
  rcases http with b | _ | _ | _
  · rcases b with e | r
    · left; simp [send_step, post_message]
    · simp only [send_step, post_message]
      split
      · left; simp
      · right; simp
  · left; simp [send_step, post_message]
  · left; simp [send_step, post_message]
  · left; simp [send_step, post_message]

theorem send_step_map (cfg : Config) (st : SendState) (il : Illust) (env : RecordEnv)
    (r : JsonObj) (h : env.http = HttpOutcome.status200 (Except.ok r)) (hr : r ≠ []) :
    (send_step cfg st il env).msg_map =
      (match extract_msg_id r with
       | some mid => dictSet st.msg_map mid il.id
       | none => st.msg_map) := by
  obtain ⟨x, xs, rfl⟩ := List.exists_cons_of_ne_nil hr
  simp [send_step, h, post_message]

theorem send_step_ids_of_ok (cfg : Config) (st : SendState) (il : Illust) (env : RecordEnv)
    (r : JsonObj) (h : env.http = HttpOutcome.status200 (Except.ok r)) (hr : r ≠ []) :
    (send_step cfg st il env).success_ids = st.success_ids ++ [il.id] := by
  obtain ⟨x, xs, rfl⟩ := List.exists_cons_of_ne_nil hr
  simp [send_step, h, post_message]

theorem send_step_ids_of_failed (cfg : Config) (st : SendState) (il : Illust) (env : RecordEnv)
    (h : post_message env.http = Except.ok none ∨
      post_message env.http = Except.ok (some []) ∨
      record_raises env = true) :
    (send_step cfg st il env).success_ids = st.success_ids := by
  rcases env with ⟨img, http⟩
  rcases http with b | _ | _ | _
  · rcases b with e | r
    · simp [send_step, post_message]
    · simp only [post_message, record_raises, reduceCtorEq, or_false, false_or] at h
      rcases h with h | h
      · cases h
      · cases Except.ok.inj h
        simp [send_step, post_message]
  · simp [send_step, post_message]
  · simp [send_step, post_message]
  · simp [send_step, post_message]

theorem attemptCount_send_loop (cfg : Config) (envs : Nat → RecordEnv) :
    ∀ (ils : List Illust) (i : Nat) (st : SendState),
      attemptCount (send_loop cfg envs ils i st).trace = attemptCount st.trace + ils.length := by
  intro ils
  induction ils with
  | nil => intro i st; simp [send_loop]
  | cons il rest ih =>
    intro i st
    rw [send_loop, ih]
    unfold attemptCount
    rw [send_step_trace, List.countP_append]
    split <;> simp <;> omega

theorem pauseCount_send_loop (cfg : Config) (envs : Nat → RecordEnv) :
    ∀ (ils : List Illust) (i : Nat) (st : SendState),
      pauseCount (send_loop cfg envs ils i st).trace =
        pauseCount st.trace + noRaiseCount envs i ils.length := by
  intro ils
  induction ils with
  | nil => intro i st; simp [send_loop, noRaiseCount]
  | cons il rest ih =>
    intro i st
    rw [send_loop, ih]
    show _ = pauseCount st.trace + noRaiseCount envs i (rest.length + 1)
    unfold pauseCount
    rw [send_step_trace, List.countP_append, noRaiseCount]
    split
    all_goals simp
    all_goals omega

theorem send_loop_ids_sublist (cfg : Config) (envs : Nat → RecordEnv) :
    ∀ (ils : List Illust) (i : Nat) (st : SendState),
      ∃ t, (send_loop cfg envs ils i st).success_ids = st.success_ids ++ t ∧
        List.Sublist t (ils.map (fun il => il.id)) := by
  intro ils
  induction ils with
  | nil => intro i st; exact ⟨[], by simp [send_loop], List.Sublist.refl _⟩
  | cons il rest ih =>
    intro i st
    obtain ⟨t, ht, hsub⟩ := ih (i + 1) (send_step cfg st il (envs i))
    rcases send_step_ids cfg st il (envs i) with h | h
    · refine ⟨t, ?_, ?_⟩
      · rw [send_loop, ht, h]
      · exact List.Sublist.cons il.id hsub
    · refine ⟨il.id :: t, ?_, ?_⟩
      · rw [send_loop, ht, h, List.append_assoc]
        rfl
      · exact List.Sublist.cons₂ il.id hsub

/-- C7: the caption carries the page-count suffix ` (<n>P)` exactly when
`page_count > 1`, carries the long-form marker `📚 ` exactly when
`page_count > max_pages` (and the caption starts with that marker), and
at most 5 tags appear, each prefixed with `#`. -/
theorem C7_format_message_markers (cfg : Config) (il : Illust) :
    (page_info il = " (" ++ toString il.page_count ++ "P)" ↔ 1 < il.page_count) ∧
    (page_info il = "" ↔ il.page_count ≤ 1) ∧
    (long_mark cfg il = "📚 " ↔ cfg.max_pages < il.page_count) ∧
    (long_mark cfg il = "" ↔ il.page_count ≤ cfg.max_pages) ∧
    (∃ rest, format_message cfg il = long_mark cfg il ++ rest) ∧
    (∃ pre post, format_message cfg il = pre ++ page_info il ++ post) ∧
    (tag_parts il).length ≤ 5 ∧
    (∀ t ∈ tag_parts il, ∃ s, t = "#" ++ s) := by
  refine ⟨?_, ?_, ?_, ?_, ?_, ?_, ?_, ?_⟩
  · unfold page_info
    split
    · next h => simp [h]
    · next h =>
      constructor
      · intro he; exact absurd he.symm (page_suffix_ne_empty _)
      · intro h1; exact absurd h1 h
  · unfold page_info
    split
    · next h =>
      constructor
      · intro he; exact absurd he (page_suffix_ne_empty _)
      · intro h1; omega
    · next h =>
      simp only [true_iff]
      omega
  · unfold long_mark
    split
    · next h => simp [h]
    · next h =>
      constructor
      · intro he; exact absurd he (by decide)
      · intro h1; exact absurd h1 h
  · unfold long_mark
    split
    · next h =>
      constructor
      · intro he; exact absurd he (by decide)
      · intro h1; omega
    · next h =>
      simp only [true_iff]
      omega
  · refine ⟨r18_mark il ++ ugoira_mark il ++ "🎨 " ++ il.title ++ page_info il ++ "\n"
      ++ "👤 " ++ il.user_name ++ "\n"
      ++ "❤️ " ++ toString il.bookmark_count ++ "\n"
      ++ match_line il
      ++ "🏷️ " ++ String.intercalate " " (tag_parts il) ++ "\n"
      ++ "🔗 https://pixiv.net/i/" ++ toString il.id ++ "\n\n"
      ++ "回复 " ++ toString il.id ++ " 1=喜欢 2=不喜欢", ?_⟩
    simp [format_message, String.append_assoc]
  · refine ⟨long_mark cfg il ++ r18_mark il ++ ugoira_mark il ++ "🎨 " ++ il.title,
      "\n" ++ "👤 " ++ il.user_name ++ "\n"
      ++ "❤️ " ++ toString il.bookmark_count ++ "\n"
      ++ match_line il
      ++ "🏷️ " ++ String.intercalate " " (tag_parts il) ++ "\n"
      ++ "🔗 https://pixiv.net/i/" ++ toString il.id ++ "\n\n"
      ++ "回复 " ++ toString il.id ++ " 1=喜欢 2=不喜欢", ?_⟩
    simp [format_message, String.append_assoc]
  · have h1 : (tag_parts il).length = min 5 il.tags.length := by
      simp [tag_parts]
    omega
  · intro t ht
    simp only [tag_parts, List.mem_map] at ht
    obtain ⟨a, _, rfl⟩ := ht
    exact ⟨a, rfl⟩

/-- C7 witness: the theorem applied to the concrete record `il3`
(12 pages, one tag) under the default configuration. -/
theorem C7_witness : ∃ s, "#x" = "#" ++ s :=
  (C7_format_message_markers cfg0 il3).2.2.2.2.2.2.2 "#x" (by decide)

/-- C6: `_download_and_encode_image` never raises past its boundary: a
raising or empty fetch yields `none`, a raising decode/encode pipeline
yields `none`, and only a successful fetch followed by a successful
re-encode yields the base64 text. -/
theorem C6_image_failures_absorbed (env : ImgEnv) (url : String) :
    (env.download url = Except.error () → download_and_encode_image env url = none) ∧
    (env.download url = Except.ok none → download_and_encode_image env url = none) ∧
    (∀ data, env.download url = Except.ok (some data) →
      env.process data = Except.error () →
      download_and_encode_image env url = none) ∧
    (∀ data b64, env.download url = Except.ok (some data) →
      env.process data = Except.ok b64 →
      download_and_encode_image env url = some b64) := by
  refine ⟨?_, ?_, ?_, ?_⟩
  · intro h; simp [download_and_encode_image, h]
  · intro h; simp [download_and_encode_image, h]
  · intro data h hp; simp [download_and_encode_image, h, hp]
  · intro data b64 h hp; simp [download_and_encode_image, h, hp]

/-- An image environment whose fetch succeeds but whose decode raises. -/
def imgEnv0 : ImgEnv :=
  { download := fun _ => Except.ok (some [1, 2, 3]),
    process := fun _ => Except.error () }

/-- C6 witness: a concrete environment where the decode step raises and
the helper returns `none`. -/
theorem C6_witness : download_and_encode_image imgEnv0 "https://i.pximg.net/x.png" = none :=
  (C6_image_failures_absorbed imgEnv0 "https://i.pximg.net/x.png").2.2.1 [1, 2, 3] rfl rfl

/-- C8: `handle_feedback` always acknowledges with `true`; with no
callback configured it forwards nothing, and with a callback configured
it forwards exactly the `(illust_id, action)` pair. -/
theorem C8_handle_feedback_acknowledges (cb : Option Unit) (illust_id : Int) (action : String) :
    (handle_feedback cb illust_id action).1 = true ∧
    (handle_feedback none illust_id action).2 = [] ∧
    (handle_feedback (some ()) illust_id action).2 = [(illust_id, action)] := by
  refine ⟨?_, rfl, rfl⟩
  cases cb <;> rfl

/-- C9: the list returned by `send` is a subsequence of the input
records' identifiers in input order. -/
theorem C9_success_ids_subsequence (cfg : Config) (ils : List Illust)
    (envs : Nat → RecordEnv) (m0 : List (Int × Int)) :
    List.Sublist (send cfg ils envs m0).success_ids (ils.map (fun il => il.id)) := by
  obtain ⟨t, ht, hsub⟩ := send_loop_ids_sublist cfg envs ils 0
    { success_ids := [], msg_map := m0, trace := [] }
  unfold send
  rw [ht]
  simpa using hsub

/-- C10: the chain posted by `send_text` depends only on the button
labels, never on their action strings. -/
theorem C10_actions_not_serialized (text : String) (bs1 bs2 : List (String × String))
    (http : HttpOutcome) (h : bs1.map Prod.fst = bs2.map Prod.fst) :
    send_text_chain text bs1 = send_text_chain text bs2 ∧
    send_text http text bs1 = send_text http text bs2 := by
  have hempty : bs1.isEmpty = bs2.isEmpty := by
    cases bs1 <;> cases bs2 <;> simp_all
  have hchain : send_text_chain text bs1 = send_text_chain text bs2 := by
    unfold send_text_chain
    rw [hempty]
    split
    · rfl
    · have hmap : bs1.map (fun b => "• " ++ b.1) = bs2.map (fun b => "• " ++ b.1) := by
        have e1 : bs1.map (fun b => "• " ++ b.1)
            = (bs1.map Prod.fst).map (fun l => "• " ++ l) := by
          rw [List.map_map]; rfl
        have e2 : bs2.map (fun b => "• " ++ b.1)
            = (bs2.map Prod.fst).map (fun l => "• " ++ l) := by
          rw [List.map_map]; rfl
        rw [e1, e2, h]
      rw [hmap]
  refine ⟨hchain, ?_⟩
  unfold send_text
  rw [hchain]

/-- C10 witness: two button lists with the same labels and different
action strings produce the same chain. -/
theorem C10_witness :
    send_text_chain "pick" [("like", "act=1")] = send_text_chain "pick" [("like", "act=2")] :=
  (C10_actions_not_serialized "pick" [("like", "act=1")] [("like", "act=2")]
    HttpOutcome.badStatus (by decide)).1

/-- C1: a delivery failure on one record does not abort the batch.  In a
3-record batch whose 2nd delivery returns a non-200 status while the
other two succeed with a truthy body, `send` returns exactly the
identifiers of records 1 and 3, all 3 delivery attempts are issued, and
in general every record of every batch gets exactly one delivery
attempt, whatever the outcomes (failures and escaping exceptions
included). -/
theorem C1_failure_does_not_abort (cfg : Config) (a b c : Illust)
    (envs : Nat → RecordEnv) (m0 : List (Int × Int)) (r1 r3 : JsonObj)
    (h0 : (envs 0).http = HttpOutcome.status200 (Except.ok r1)) (h0n : r1 ≠ [])
    (h1 : (envs 1).http = HttpOutcome.badStatus)
    (h2 : (envs 2).http = HttpOutcome.status200 (Except.ok r3)) (h2n : r3 ≠ []) :
    (send cfg [a, b, c] envs m0).success_ids = [a.id, c.id] ∧
    attemptCount (send cfg [a, b, c] envs m0).trace = 3 ∧
    (∀ (ils : List Illust) (envs2 : Nat → RecordEnv) (m2 : List (Int × Int)),
      attemptCount (send cfg ils envs2 m2).trace = ils.length) := by
  have hall : ∀ (ils : List Illust) (envs2 : Nat → RecordEnv) (m2 : List (Int × Int)),
      attemptCount (send cfg ils envs2 m2).trace = ils.length := by
    intro ils envs2 m2
    unfold send
    rw [attemptCount_send_loop]
    simp [attemptCount]
  set st0 : SendState := { success_ids := [], msg_map := m0, trace := [] } with hst0
  set st1 := send_step cfg st0 a (envs 0) with hst1
  set st2 := send_step cfg st1 b (envs 1) with hst2
  have hrun : send cfg [a, b, c] envs m0 = send_step cfg st2 c (envs 2) := rfl
  have e1 : st1.success_ids = st0.success_ids ++ [a.id] :=
    send_step_ids_of_ok cfg st0 a (envs 0) r1 h0 h0n
  have e2 : st2.success_ids = st1.success_ids :=
    send_step_ids_of_failed cfg st1 b (envs 1) (Or.inl (by rw [h1]; rfl))
  have e3 : (send_step cfg st2 c (envs 2)).success_ids = st2.success_ids ++ [c.id] :=
    send_step_ids_of_ok cfg st2 c (envs 2) r3 h2 h2n
  refine ⟨?_, hall [a, b, c] envs m0, hall⟩
  rw [hrun, e3, e2, e1]
  simp

/-- C1 witness: the concrete 3-record batch `envsC1` (2nd delivery
returns non-200) yields the identifiers of records 1 and 3 and three
attempts. -/
theorem C1_witness :
    (send cfg0 [il1, il2, il3] envsC1 []).success_ids = [il1.id, il3.id] ∧
    attemptCount (send cfg0 [il1, il2, il3] envsC1 []).trace = 3 := by
  have h := C1_failure_does_not_abort cfg0 il1 il2 il3 envsC1 []
    [("message_id", 7)] [("msg_id", 8)] rfl (by decide) rfl rfl (by decide)
  exact ⟨h.1, h.2.1⟩

/-- C5: when a record has image URLs and the cover transcoding returns
`none`, the chain holds a link-based image segment whose URL mentions
the illustration identifier; and every built chain is image segments
followed by the caption segment. -/
theorem C5_link_fallback (cfg : Config) (il : Illust) (img : Option String)
    (hurls : il.image_urls ≠ []) (himg : img = none) :
    Segment.image_url (get_pixiv_cat_url il.id) ∈ build_chain cfg il img ∧
    (∃ pre post, get_pixiv_cat_url il.id = pre ++ toString il.id ++ post) ∧
    (∀ img2 : Option String, ∃ segs,
      build_chain cfg il img2 = segs ++ [Segment.plain (format_message cfg il)] ∧
      ∀ s ∈ segs, (∃ u, s = Segment.image_url u) ∨ (∃ b64, s = Segment.image_b64 b64)) := by
  obtain ⟨u, us, hu⟩ := List.exists_cons_of_ne_nil hurls
  subst himg
  refine ⟨?_, ⟨"https://pixiv.cat/", ".jpg", by simp [get_pixiv_cat_url, String.append_assoc]⟩, ?_⟩
  · simp [build_chain, hu]
  · intro img2
    refine ⟨if il.image_urls.isEmpty then []
      else
        match img2 with
        | some b64 => [Segment.image_b64 b64]
        | none => [Segment.image_url (get_pixiv_cat_url il.id)], rfl, ?_⟩
    intro s hs
    split at hs
    · simp at hs
    · rcases img2 with _ | b64
      · simp at hs
        exact Or.inl ⟨_, hs⟩
      · simp at hs
        exact Or.inr ⟨_, hs⟩

/-- C5 witness: the concrete record `il1` with a failed cover download
gets the pixiv.cat link segment. -/
theorem C5_witness :
    Segment.image_url (get_pixiv_cat_url il1.id) ∈ build_chain cfg0 il1 none :=
  (C5_link_fallback cfg0 il1 none (by decide) rfl).1

/-- A single-record environment whose delivery returns 200 with the
body `{"message_id": 0}`. -/
def envZeroId : Nat → RecordEnv := fun _ =>
  { img := none, http := HttpOutcome.status200 (Except.ok [("message_id", 0)]) }

/-- C2 counterexample: a successful delivery whose response carries the
gateway identifier `0` under the first known field name yields no
correlation entry — `0` is falsy in Python, so `if msg_id:` skips the
insert.  The claim's "for every identifier value the gateway may
return" therefore fails at value 0. -/
theorem C2_counterexample :
    (send cfg0 [il1] envZeroId []).success_ids = [il1.id] ∧
    jget [("message_id", 0)] "message_id" = some 0 ∧
    (send cfg0 [il1] envZeroId []).msg_map = [] := by
  refine ⟨rfl, rfl, rfl⟩

/-- C2 amended: after a single-record `send` from an empty map whose
delivery succeeds with truthy body `r`, the correlation map holds
exactly the entry `(mid, illust.id)` when the probe
`r.get("message_id") or r.get("msg_id")` produces a truthy identifier
`mid`, and nothing otherwise; the probed value is the first *truthy*
match of the two field names (a falsy `message_id`, e.g. `0`, falls
through to `msg_id`, and an all-falsy response inserts nothing). -/
theorem C2_correlation_truthy (cfg : Config) (il : Illust) (envs : Nat → RecordEnv)
    (r : JsonObj) (h : (envs 0).http = HttpOutcome.status200 (Except.ok r)) (hr : r ≠ []) :
    ((send cfg [il] envs []).msg_map =
      match extract_msg_id r with
      | some mid => [(mid, il.id)]
      | none => []) ∧
    (∀ v : Int, jget r "message_id" = some v → v ≠ 0 → extract_msg_id r = some v) ∧
    (∀ w : Int, (jget r "message_id" = none ∨ jget r "message_id" = some 0) →
      jget r "msg_id" = some w → w ≠ 0 → extract_msg_id r = some w) ∧
    ((jget r "message_id" = none ∨ jget r "message_id" = some 0) →
      (jget r "msg_id" = none ∨ jget r "msg_id" = some 0) →
      extract_msg_id r = none) := by
  refine ⟨?_, ?_, ?_, ?_⟩
  · have hmap := send_step_map cfg { success_ids := [], msg_map := [], trace := [] }
      il (envs 0) r h hr
    have hrun : send cfg [il] envs [] =
        send_step cfg { success_ids := [], msg_map := [], trace := [] } il (envs 0) := rfl
    rw [hrun, hmap]
    cases extract_msg_id r <;> simp [dictSet]
  · intro v hv hv0
    simp [extract_msg_id, pyOr, hv, hv0, truthyId]
  · intro w hm hw hw0
    rcases hm with hm | hm <;> simp [extract_msg_id, pyOr, hm, hw, hw0, truthyId]
  · intro hm hw
    rcases hm with hm | hm <;> rcases hw with hw | hw <;>
      simp [extract_msg_id, pyOr, hm, hw, truthyId]

/-- A single-record environment whose delivery returns 200 with the
body `{"message_id": 42}`. -/
def envId42 : Nat → RecordEnv := fun _ =>
  { img := none, http := HttpOutcome.status200 (Except.ok [("message_id", 42)]) }

/-- C2 witness: the `{"message_id": 42}` example — the map holds exactly
`42 -> 101` after `send`. -/
theorem C2_witness : (send cfg0 [il1] envId42 []).msg_map = [(42, il1.id)] := by
  have h := (C2_correlation_truthy cfg0 il1 envId42 [("message_id", 42)] rfl (by decide)).1
  simpa using h

/-- A single-record environment whose delivery returns 200 with the
empty JSON object `{}` as body. -/
def envEmptyBody : Nat → RecordEnv := fun _ =>
  { img := none, http := HttpOutcome.status200 (Except.ok []) }

/-- C3 counterexample: a 200 response whose parsed body is the empty
JSON object is returned by `_post_message`, yet the identifier is not
appended to the success list — `send` guards with `if result:`, and the
empty dict is falsy in Python. -/
theorem C3_counterexample :
    post_message (HttpOutcome.status200 (Except.ok [])) = Except.ok (some []) ∧
    (send cfg0 [il1] envEmptyBody []).success_ids = [] := by
  exact ⟨rfl, rfl⟩

/-- C3 amended: at the delivery layer, 200 returns the parsed body and
any other status returns `None`; in `send`, a 200 delivery appends the
record's identifier exactly when the parsed body is truthy (nonempty),
and a non-200 delivery never appends. -/
theorem C3_status_semantics (cfg : Config) (st : SendState) (il : Illust)
    (env : RecordEnv) (r : JsonObj) :
    (post_message (HttpOutcome.status200 (Except.ok r)) = Except.ok (some r)) ∧
    (post_message HttpOutcome.badStatus = Except.ok none) ∧
    (env.http = HttpOutcome.status200 (Except.ok r) → r ≠ [] →
      (send_step cfg st il env).success_ids = st.success_ids ++ [il.id]) ∧
    (env.http = HttpOutcome.status200 (Except.ok []) →
      (send_step cfg st il env).success_ids = st.success_ids) ∧
    (env.http = HttpOutcome.badStatus →
      (send_step cfg st il env).success_ids = st.success_ids) := by
  refine ⟨rfl, rfl, ?_, ?_, ?_⟩
  · intro h hr
    exact send_step_ids_of_ok cfg st il env r h hr
  · intro h
    exact send_step_ids_of_failed cfg st il env (Or.inr (Or.inl (by rw [h]; rfl)))
  · intro h
    exact send_step_ids_of_failed cfg st il env (Or.inl (by rw [h]; rfl))

/-- C3 witness: with a concrete truthy 200 body the identifier is
appended, and with a concrete non-200 outcome it is not. -/
theorem C3_witness :
    (send_step cfg0 { success_ids := [], msg_map := [], trace := [] } il1 (envId42 0)).success_ids
      = [il1.id] ∧
    (send_step cfg0 { success_ids := [], msg_map := [], trace := [] } il1
      { img := none, http := HttpOutcome.badStatus }).success_ids = [] := by
  constructor
  · exact (C3_status_semantics cfg0 { success_ids := [], msg_map := [], trace := [] } il1
      (envId42 0) [("message_id", 42)]).2.2.1 rfl (by decide)
  · exact (C3_status_semantics cfg0 { success_ids := [], msg_map := [], trace := [] } il1
      { img := none, http := HttpOutcome.badStatus } []).2.2.2.2 rfl

/-- A single-record environment where the 200 body fails to parse, so an
exception escapes `_post_message` into the batch handler. -/
def envRaises : Nat → RecordEnv := fun _ =>
  { img := none, http := HttpOutcome.status200 (Except.error ()) }

/-- C4 counterexample: when an exception escapes while processing a
record, the `asyncio.sleep(1)` — which sits inside the per-record
`try` — is skipped: the trace holds the delivery attempt and no pause,
contradicting "the pause is unconditional". -/
theorem C4_counterexample :
    (send cfg0 [il2] envRaises []).trace = [Event.attempt (build_chain cfg0 il2 none)] ∧
    pauseCount (send cfg0 [il2] envRaises []).trace = 0 := by
  exact ⟨rfl, rfl⟩

/-- C4 amended: each record's step appends its delivery attempt followed
by the inter-message pause unless an exception escapes to the batch
handler, in which case the pause is skipped; over a whole batch the
number of pauses equals the number of records whose processing did not
raise. -/
theorem C4_pause_unless_exception (cfg : Config) (ils : List Illust)
    (envs : Nat → RecordEnv) (m0 : List (Int × Int)) (st : SendState)
    (il : Illust) (env : RecordEnv) :
    ((send_step cfg st il env).trace =
      st.trace ++ Event.attempt (build_chain cfg il env.img) ::
        (if record_raises env then [] else [Event.pause])) ∧
    pauseCount (send cfg ils envs m0).trace = noRaiseCount envs 0 ils.length := by
  refine ⟨send_step_trace cfg st il env, ?_⟩
  unfold send
  rw [pauseCount_send_loop]
  simp [pauseCount]

end AstrBot
